import Mathlib

/-!
Verification of the active_recall study-assistant backend (src/app.py).

Strings are modelled as `List Char` (Python `str`), Python ints as `ℤ` or `ℕ`,
Python floats (timestamps, counts that receive `+= 0.5`, mastery scores) as `ℚ`,
and dict keys that may be absent as `Option`.  External collaborators (OpenAI,
Cartesia) are oracles: their reply text is a parameter of the embedded
function.  Each definition carries the app.py line numbers it embeds.
-/

/-! ## Python string primitives -/

/-- Python whitespace set used by `str.strip`, `str.split` defaults and the
regex class `\s` (ASCII part; all strings in this development are ASCII). -/
def pyIsSpace (c : Char) : Bool :=
  c = ' ' || c = '\t' || c = '\n' || c = '\r' || c = '\x0b' || c = '\x0c'

/-- Python `str.lower()` (ASCII). -/
def pyLower (s : List Char) : List Char := s.map Char.toLower

/-- Python `str.strip()`: drop leading and trailing whitespace. -/
def pyStrip (s : List Char) : List Char :=
  ((s.dropWhile pyIsSpace).reverse.dropWhile pyIsSpace).reverse

/-- Python `needle in hay` on strings: substring test. -/
def pyContains (needle : List Char) : List Char → Bool
  | [] => needle.isPrefixOf []
  | c :: t => needle.isPrefixOf (c :: t) || pyContains needle t

/-- Python `s.split(sep)` for a one-character separator: no collapsing of
adjacent separators, splitting the empty string gives `[""]`. -/
def pySplit (sep : Char) : List Char → List (List Char)
  | [] => [[]]
  | c :: cs =>
    if c = sep then [] :: pySplit sep cs
    else
      match pySplit sep cs with
      | [] => [[c]]
      | l :: ls => (c :: l) :: ls

/-- Python `l[i]` with negative-index semantics: `i < 0` counts from the end;
`none` models `IndexError`. -/
def pyIndex {α : Type} (l : List α) (i : ℤ) : Option α :=
  if 0 ≤ i then l.get? i.toNat
  else if 0 ≤ (l.length : ℤ) + i then l.get? ((l.length : ℤ) + i).toNat
  else none

/-- Python `round(x, 2)`: the float value idealized as an exact rational,
rounded to two decimal places. -/
def round2 (x : ℚ) : ℚ := (round (100 * x) : ℤ) / 100

/-! ## Speech queue (app.py lines 1283–1316, 1337–1386)

A TTS request as built at lines 1284–1293 of the `/text-to-speech/queue`
POST handler. -/

/-- The `priority` field of a queue entry: `'high'`, `'normal'` or `'low'`
(line 1281). -/
inductive Priority where
  | high
  | normal
  | low
deriving DecidableEq, Repr

/-- The request dict built at lines 1285–1293. -/
structure TTSRequest where
  text : List Char
  voice_id : List Char
  model_id : List Char
  context_id : List Char
  timestamp : ℚ
  priority : Priority
  is_streaming : Bool
deriving DecidableEq, Repr

/-- Lines 1285–1293: `is_streaming` is `len(text) > 100`. -/
def mkTTSRequest (text voice_id model_id context_id : List Char) (timestamp : ℚ)
    (priority : Priority) : TTSRequest :=
  { text := text, voice_id := voice_id, model_id := model_id,
    context_id := context_id, timestamp := timestamp, priority := priority,
    is_streaming := decide (100 < text.length) }

/-- Python `list.insert(i, x)`: positions past the end append. -/
def listInsertAt {α : Type} : ℕ → α → List α → List α
  | 0, a, l => a :: l
  | _ + 1, a, [] => [a]
  | n + 1, a, b :: l => b :: listInsertAt n a l

/-- The `insert_index` computed by the loop at lines 1310–1315: the index of
the first entry whose priority is not `'high'`, or the queue length if every
entry is `'high'`. -/
def normalInsertIdx : List TTSRequest → ℕ
  | [] => 0
  | r :: rs => if r.priority ≠ Priority.high then 0 else normalInsertIdx rs + 1

/-- Lines 1297–1316: priority insertion into the session's `tts_queue`.
`'high'` inserts at the head, `'low'` appends, `'normal'` appends to an empty
queue and otherwise inserts at `normalInsertIdx`. -/
def tts_queue_enqueue (q : List TTSRequest) (r : TTSRequest) : List TTSRequest :=
  match r.priority with
  | Priority.high => listInsertAt 0 r q
  | Priority.low => q ++ [r]
  | Priority.normal =>
    if q.isEmpty then q ++ [r]
    else listInsertAt (normalInsertIdx q) r q

/-- Draining the queue by repeatedly popping the head (`tts_queue.pop(0)`,
line 1370) yields the queue's entries in order. -/
def drainQueue : List TTSRequest → List TTSRequest
  | [] => []
  | r :: rs => r :: drainQueue rs

/-! ## Session data model (app.py lines 68–69, 227–231, 368–373, 423–435,
1091–1097, 1152–1164, 1221–1223)

Keys that a handler may find absent from the session dict are `Option`s. -/

/-- A chat message, `{role, content}` (lines 378–381). -/
structure Message where
  role : List Char
  content : List Char
deriving DecidableEq, Repr

/-- One entry of `question_state['question_history']` (lines 477–481). -/
structure HistoryEntry where
  question_index : ℤ
  question : List Char
  timestamp : ℚ
deriving DecidableEq, Repr

/-- The three-way evaluation derived at lines 552–561. -/
inductive Evaluation where
  | correct
  | partially_correct
  | incorrect
deriving DecidableEq, Repr

/-- `question_state['last_answer_evaluation']` (lines 564–570). -/
structure LastEval where
  question : List Char
  answer : List Char
  feedback : List Char
  evaluation : Evaluation
  timestamp : ℚ
deriving DecidableEq, Repr

/-- The `question_state` dict (lines 425–435).  `current_index` is a Python
int (ℤ: the `update` action can store any integer); the three counters are ℚ
because `generate_feedback_or_hint` adds `0.5` to `correct_count`
(line 2378). -/
structure QuestionState where
  current_index : ℤ
  answered_questions : List (List Char)
  skipped_questions : List (List Char)
  correct_count : ℚ
  partially_correct_count : ℚ
  incorrect_count : ℚ
  last_answer_evaluation : Option LastEval
  mastery_level : ℚ
  question_history : List HistoryEntry
deriving DecidableEq, Repr

/-- The fresh `question_state` created at lines 425–435. -/
def initialQuestionState : QuestionState :=
  { current_index := 0, answered_questions := [], skipped_questions := [],
    correct_count := 0, partially_correct_count := 0, incorrect_count := 0,
    last_answer_evaluation := none, mastery_level := 0, question_history := [] }

/-- `tts_preferences` (lines 1091–1097). -/
structure TTSPrefs where
  voice_id : List Char
  model_id : List Char
  auto_read : Bool
  server_tts : Bool
  force_browser_tts : Bool
deriving DecidableEq, Repr

/-- Defaults set at lines 1091–1097. -/
def defaultTTSPrefs : TTSPrefs :=
  { voice_id := "nova".toList, model_id := "sonic-2".toList,
    auto_read := false, server_tts := true, force_browser_tts := false }

/-- The `ui_state` dict.  Only `is_assistant_speaking` is read or written by
the operations the claims are about (lines 1361, 1377); the remaining keys
(visualizer settings, timestamps, …) do not influence them and are not
modelled. -/
structure UIState where
  is_assistant_speaking : Bool
deriving DecidableEq, Repr

/-- A websocket auth token's data, `{token: {created_at, expires_at, type}}`
as checked at lines 127–146. -/
structure TokenData where
  created_at : ℚ
  expires_at : ℚ
  type : List Char
deriving DecidableEq, Repr

/-- One entry of the process-wide `chat_sessions` store.  `none` models an
absent dict key. -/
structure SessionData where
  messages : List Message
  current_topic : Option (List Char)
  topic_difficulty : Option (List Char)
  generated_questions : List (List Char)
  question_state : Option QuestionState
  tts_queue : Option (List TTSRequest)
  active_tts : Option TTSRequest
  ui_state : Option UIState
  tts_preferences : Option TTSPrefs
  websocket_tokens : Option (List (List Char × TokenData))
deriving DecidableEq, Repr

/-- The entry created on first contact (lines 227–231, 265–270, 368–373):
`{'messages': [], 'current_topic': None, 'generated_questions': []}`;
every other key is absent. -/
def newChatSession : SessionData :=
  { messages := [], current_topic := none, topic_difficulty := none,
    generated_questions := [], question_state := none, tts_queue := none,
    active_tts := none, ui_state := none, tts_preferences := none,
    websocket_tokens := none }

/-- Lines 423–435 of `manage_question_state`: create `question_state` with
its defaults when the key is absent. -/
def ensureQuestionState (sd : SessionData) : SessionData :=
  match sd.question_state with
  | none => { sd with question_state := some initialQuestionState }
  | some _ => sd

/-! ## Speech-queue processing (app.py lines 1337–1389) -/

/-- Outcome of one `/text-to-speech/process-queue` call.  `dispatch r` stands
for handing `r` to the synthesis collaborator (streamed or buffered, lines
1388 onward); the other constructors are the handler's early returns. -/
inductive TTSProcessResult where
  | noQueue
  | queueEmpty
  | apiKeyMissing
  | dispatch (r : TTSRequest)
deriving DecidableEq, Repr

/-- Sets `ui_state['is_assistant_speaking']` when the `ui_state` key exists
(lines 1360–1361 and 1376–1377). -/
def setSpeaking (b : Bool) (sd : SessionData) : SessionData :=
  match sd.ui_state with
  | none => sd
  | some _ => { sd with ui_state := some { is_assistant_speaking := b } }

/-- Lines 1343–1389 of `process_tts_queue`, for a valid session:
no `tts_queue` key → 404; empty queue → speaking flag cleared, empty reply;
otherwise the head is popped (line 1370), stored as `active_tts`
(line 1373), the speaking flag is set (lines 1376–1377), and only then is
the Cartesia key checked (lines 1380–1386): if it is missing the handler
returns the 503 error, with the popped item left as active and never
re-queued. -/
def process_tts_queue (apiKeyConfigured : Bool) (sd : SessionData) :
    TTSProcessResult × SessionData :=
  match sd.tts_queue with
  | none => (TTSProcessResult.noQueue, sd)
  | some [] => (TTSProcessResult.queueEmpty, setSpeaking false sd)
  | some (r :: rest) =>
    let sd1 := setSpeaking true { sd with tts_queue := some rest, active_tts := some r }
    if apiKeyConfigured then (TTSProcessResult.dispatch r, sd1)
    else (TTSProcessResult.apiKeyMissing, sd1)

/-! ## Feedback classification and answer evaluation
(app.py lines 532–589, 2290–2394) -/

/-- Lines 553–561 as written: the keyword classification of a feedback
STRING.  The first branch fires when `'correct'` occurs and neither
`'not correct'` nor `'incorrect'` does; otherwise `'partially'`/`'partly'`
give `partially_correct`; otherwise `incorrect`. -/
def analyze_feedback_evaluation (feedback : List Char) : Evaluation :=
  let f := pyLower feedback
  if pyContains ("correct".toList) f &&
      !(pyContains ("not correct".toList) f || pyContains ("incorrect".toList) f) then
    Evaluation.correct
  else if pyContains ("partially".toList) f || pyContains ("partly".toList) f then
    Evaluation.partially_correct
  else
    Evaluation.incorrect

/-- Lines 552–589 read as they are written, i.e. with `feedback` being the
collaborator's feedback STRING: classify it, bump the matching counter
(lines 554–561), record `last_answer_evaluation` (lines 564–570), append a
correctly-answered question (lines 573–575), and recompute `mastery_level`
(lines 577–582).  In the running program this block is unreachable — see
`evaluateQSAction` — but it is the unambiguous intent of the source and the
semantics several claims describe. -/
def evaluateFeedbackText (now : ℚ) (current_question answer feedback : List Char)
    (qs : QuestionState) : QuestionState × Evaluation :=
  let ev := analyze_feedback_evaluation feedback
  let qs1 :=
    match ev with
    | Evaluation.correct => { qs with correct_count := qs.correct_count + 1 }
    | Evaluation.partially_correct =>
      { qs with partially_correct_count := qs.partially_correct_count + 1 }
    | Evaluation.incorrect => { qs with incorrect_count := qs.incorrect_count + 1 }
  let le : LastEval :=
    { question := current_question, answer := answer, feedback := feedback,
      evaluation := ev, timestamp := now }
  let qs2 := { qs1 with last_answer_evaluation := some le }
  let qs3 :=
    if ev = Evaluation.correct ∧ current_question ∉ qs2.answered_questions then
      { qs2 with answered_questions := qs2.answered_questions ++ [current_question] }
    else qs2
  let total := qs3.correct_count + qs3.partially_correct_count + qs3.incorrect_count
  let weighted := qs3.correct_count + qs3.partially_correct_count * (1 / 2)
  let qs4 :=
    if 0 < total then { qs3 with mastery_level := round2 (weighted / total) }
    else qs3
  (qs4, ev)

/-- The pair `generate_feedback_or_hint` returns at lines 2301, 2336, 2389
and 2394: a `{'role': 'assistant', 'content': …}` message and the response
text. -/
def feedbackPair (text : List Char) : Message × List Char :=
  ({ role := "assistant".toList, content := text }, text)

/-- Lines 2290–2394, `generate_feedback_or_hint(user_message, session_data)`.
`collab` is the generation collaborator's reply text (`none` models the
OpenAI call raising, caught at lines 2391–2394).  For a non-hint message the
function classifies its own reply with the SECOND keyword rule (lines
2370–2380: `'correct'` present and `'incorrect'` absent → `correct_count += 1`;
else `'partially correct'` present → `correct_count += 0.5`; else
`incorrect_count += 1` — `partially_correct_count` is never touched here),
stores the state back, and appends a next-question prompt when correct
(lines 2386–2387). -/
def generate_feedback_or_hint (collab : Option (List Char))
    (user_message : List Char) (sd : SessionData) :
    (Message × List Char) × SessionData :=
  let questions := sd.generated_questions
  let qs := sd.question_state.getD initialQuestionState
  let current_index := qs.current_index
  if questions.isEmpty || decide ((questions.length : ℤ) ≤ current_index) then
    (feedbackPair ("I'm not sure what question you're answering. Let's start with a topic first.".toList), sd)
  else
    let is_hint_request :=
      pyContains ("hint".toList) (pyLower user_message) ||
      pyContains ("help".toList) (pyLower user_message)
    match collab with
    | none =>
      (feedbackPair ("I apologize, but I'm having trouble evaluating your answer. Let's try again or move to the next question.".toList), sd)
    | some reply =>
      if is_hint_request then (feedbackPair reply, sd)
      else
        let f := pyLower reply
        let correctQuality :=
          pyContains ("correct".toList) f && !pyContains ("incorrect".toList) f
        let qs1 :=
          if correctQuality then { qs with correct_count := qs.correct_count + 1 }
          else if pyContains ("partially correct".toList) f then
            { qs with correct_count := qs.correct_count + (1 / 2) }
          else { qs with incorrect_count := qs.incorrect_count + 1 }
        let sd1 := { sd with question_state := some qs1 }
        let text :=
          if correctQuality then
            reply ++ ("\n\nReady for the next question? Just say 'next'.".toList)
          else reply
        (feedbackPair text, sd1)

/-! ## The `/questions/state` endpoint (app.py lines 413–616) -/

/-- The body of a POST to `/questions/state`: the `action` field and its
arguments.  For `evaluate`, `collab` is the feedback collaborator's reply
(the argument of `generate_feedback_or_hint`). -/
inductive QSAction where
  | next
  | previous
  | evaluate (answer : List Char) (collab : Option (List Char))
  | update (current_index : Option ℤ)
      (answered_questions skipped_questions : Option (List (List Char)))
      (correct_count partially_correct_count incorrect_count : Option ℚ)
  | unknown (name : List Char)
deriving DecidableEq, Repr

/-- The handler's reply, keeping the fields the claims mention. -/
inductive QSResponse where
  | invalidSession
  | errorNoQuestions
  | errorNoAnswer
  | errorBadIndex
  | errorUnknownAction
  | internalError
  | questionOut (question : List Char) (index : ℤ) (total : ℕ)
  | stateOut (qs : QuestionState)
deriving DecidableEq, Repr

/-- Lines 462–495, action `'next'`: wrap the index with Python `%`
(`Int.emod`), store it (line 471), read the question at the new index
(line 474 — an exception here would surface as the 500 handler of lines
610–616), append to history (lines 477–481) and to the chat messages
(lines 483–488), and return the question.  No completion summary exists on
this path. -/
def nextQSAction (now : ℚ) (sd : SessionData) (qs : QuestionState) :
    QSResponse × SessionData :=
  let questions := sd.generated_questions
  if questions.isEmpty then (QSResponse.errorNoQuestions, sd)
  else
    let new_index := (qs.current_index + 1) % (questions.length : ℤ)
    let qs1 := { qs with current_index := new_index }
    let sd1 := { sd with question_state := some qs1 }
    match pyIndex questions new_index with
    | none => (QSResponse.internalError, sd1)
    | some next_question =>
      let entry : HistoryEntry :=
        { question_index := new_index, question := next_question, timestamp := now }
      let qs2 := { qs1 with question_history := qs1.question_history ++ [entry] }
      let reply : Message :=
        { role := "assistant".toList,
          content := ("Let's try this question: ".toList) ++ next_question }
      let sd2 :=
        { sd1 with
          question_state := some qs2,
          messages := sd1.messages ++ [reply] }
      (QSResponse.questionOut next_question new_index questions.length, sd2)

/-- Lines 497–530, action `'previous'`: identical to `'next'` with
`current_index - 1`. -/
def prevQSAction (now : ℚ) (sd : SessionData) (qs : QuestionState) :
    QSResponse × SessionData :=
  let questions := sd.generated_questions
  if questions.isEmpty then (QSResponse.errorNoQuestions, sd)
  else
    let new_index := (qs.current_index - 1) % (questions.length : ℤ)
    let qs1 := { qs with current_index := new_index }
    let sd1 := { sd with question_state := some qs1 }
    match pyIndex questions new_index with
    | none => (QSResponse.internalError, sd1)
    | some prev_question =>
      let entry : HistoryEntry :=
        { question_index := new_index, question := prev_question, timestamp := now }
      let qs2 := { qs1 with question_history := qs1.question_history ++ [entry] }
      let reply : Message :=
        { role := "assistant".toList,
          content := ("Let's go back to this question: ".toList) ++ prev_question }
      let sd2 :=
        { sd1 with
          question_state := some qs2,
          messages := sd1.messages ++ [reply] }
      (QSResponse.questionOut prev_question new_index questions.length, sd2)

/-- Lines 532–589, action `'evaluate'`.  After validating the answer, the
question list and the index, line 550 binds `feedback` to the RETURN VALUE of
`generate_feedback_or_hint(answer, session_data)` — which is the
`(message, text)` PAIR of `feedbackPair`, not a string.  Line 554 then calls
`feedback.lower()`, which raises `AttributeError` on a tuple; the handler's
`except` (lines 610–616) turns this into the 500 `internalError` reply.  The
side effects `generate_feedback_or_hint` already made on `question_state`
(its own counter update) survive, but lines 552–589 — classification,
`last_answer_evaluation`, mastery recomputation (`evaluateFeedbackText`) —
never run. -/
def evaluateQSAction (answer : List Char) (collab : Option (List Char))
    (sd : SessionData) (qs : QuestionState) : QSResponse × SessionData :=
  if answer.isEmpty then (QSResponse.errorNoAnswer, sd)
  else
    let questions := sd.generated_questions
    if questions.isEmpty then (QSResponse.errorNoQuestions, sd)
    else if decide ((questions.length : ℤ) ≤ qs.current_index) then
      (QSResponse.errorBadIndex, sd)
    else
      match pyIndex questions qs.current_index with
      | none => (QSResponse.internalError, sd)
      | some _current_question =>
        let feedback_and_sd := generate_feedback_or_hint collab answer sd
        -- `feedback_and_sd.1` is the pair; `feedback.lower()` on it raises.
        (QSResponse.internalError, feedback_and_sd.2)

/-- Lines 591–605, action `'update'`: copy every supplied field into
`question_state` with no validation whatsoever. -/
def updateQSAction (sd : SessionData) (qs : QuestionState)
    (current_index : Option ℤ)
    (answered_questions skipped_questions : Option (List (List Char)))
    (correct_count partially_correct_count incorrect_count : Option ℚ) :
    QSResponse × SessionData :=
  let qs1 := { qs with
    current_index := current_index.getD qs.current_index,
    answered_questions := answered_questions.getD qs.answered_questions,
    skipped_questions := skipped_questions.getD qs.skipped_questions,
    correct_count := correct_count.getD qs.correct_count,
    partially_correct_count := partially_correct_count.getD qs.partially_correct_count,
    incorrect_count := incorrect_count.getD qs.incorrect_count }
  (QSResponse.stateOut qs1, { sd with question_state := some qs1 })

/-- Lines 453–608: the POST dispatch of `manage_question_state` for a valid
session, after `ensureQuestionState`. -/
def manage_question_state_post (now : ℚ) (a : QSAction) (sd0 : SessionData) :
    QSResponse × SessionData :=
  let sd := ensureQuestionState sd0
  let qs := sd.question_state.getD initialQuestionState
  match a with
  | QSAction.next => nextQSAction now sd qs
  | QSAction.previous => prevQSAction now sd qs
  | QSAction.evaluate answer collab => evaluateQSAction answer collab sd qs
  | QSAction.update ci aq sq cc pc ic => updateQSAction sd qs ci aq sq cc pc ic
  | QSAction.unknown _ => (QSResponse.errorUnknownAction, sd)

/-! ## Conversational next-question flow (app.py lines 1944–1985) -/

/-- What `handle_next_question` answers with: the apology when no questions
exist (lines 1948–1950), the completion summary with its accuracy percentage
(lines 1960–1975, `accuracy = (correct / total) * 100`), or the next question
(lines 1976–1980).  The summary's rendering to text (`f"... ({accuracy:.1f}%
accuracy) ..."`) is abstracted to the accuracy value it interpolates;
`indexError` models line 1979 raising (surfaced by `chat`'s 500 handler). -/
inductive NextQuestionResult where
  | noQuestions
  | completed (correct : ℚ) (total : ℕ) (accuracy : ℚ)
  | nextQ (index : ℤ) (question : List Char)
  | indexError
deriving DecidableEq, Repr

/-- Lines 1944–1985, `handle_next_question(session_data)`: with questions
present, `next_index = current_index + 1`; when `next_index >= len(questions)`
the completion summary is produced and `current_index` is reset to 0
(lines 1960–1975); otherwise the index advances and the question at
`next_index` is returned (lines 1976–1980). -/
def handle_next_question (sd : SessionData) : NextQuestionResult × SessionData :=
  let questions := sd.generated_questions
  if questions.isEmpty then (NextQuestionResult.noQuestions, sd)
  else
    let qs := sd.question_state.getD initialQuestionState
    let next_index := qs.current_index + 1
    if decide ((questions.length : ℤ) ≤ next_index) then
      let correct := qs.correct_count
      let total := questions.length
      let accuracy := if 0 < total then correct / (total : ℚ) * 100 else 0
      let qs1 := { qs with current_index := 0 }
      (NextQuestionResult.completed correct total accuracy,
       { sd with question_state := some qs1 })
    else
      let qs1 := { qs with current_index := next_index }
      let sd1 := { sd with question_state := some qs1 }
      match pyIndex questions next_index with
      | none => (NextQuestionResult.indexError, sd1)
      | some q => (NextQuestionResult.nextQ next_index q, sd1)

/-! ## Question parsing (app.py lines 2223–2269) -/

/-- The zero-width lookahead `(?=\n\d+[\.\)]|$)` of the extraction regex at
line 2229, evaluated at a suffix of the input: end of string, `$` before a
final newline (no `re.MULTILINE`), or a newline followed by digits and `.`
or `)`. -/
def numberedLookahead (l : List Char) : Bool :=
  match l with
  | [] => true
  | ['\n'] => true
  | '\n' :: t =>
    let ds := t.takeWhile Char.isDigit
    let r := t.dropWhile Char.isDigit
    !ds.isEmpty && (r.head? = some '.' || r.head? = some ')')
  | _ => false

/-- The lazy capture `(.*?)` (with `re.DOTALL`) of the regex at line 2229:
the shortest prefix after which the lookahead holds, returned with the
remaining suffix (the resume position of the scan). -/
def lazyCapture : List Char → List Char × List Char
  | [] => ([], [])
  | c :: t =>
    if numberedLookahead (c :: t) then ([], c :: t)
    else
      let p := lazyCapture t
      (c :: p.1, p.2)

/-- The scan of `re.findall(r'\d+[\.\)]\s*(.*?)(?=\n\d+[\.\)]|$)', raw,
re.DOTALL)` at line 2229: at each position try `\d+` then `.` or `)`, then
greedy `\s*`, then the lazy capture; on failure resume one character later,
on success resume where the lookahead matched.  `fuel` only bounds the
recursion; `s.length + 1` always suffices because every recursive call
shortens the list. -/
def findNumberedGo : ℕ → List Char → List (List Char)
  | 0, _ => []
  | _ + 1, [] => []
  | fuel + 1, c :: cs =>
    if c.isDigit then
      match (c :: cs).dropWhile Char.isDigit with
      | b :: r2 =>
        if b = '.' || b = ')' then
          let r3 := r2.dropWhile pyIsSpace
          let p := lazyCapture r3
          p.1 :: findNumberedGo fuel p.2
        else findNumberedGo fuel cs
      | [] => findNumberedGo fuel cs
    else findNumberedGo fuel cs

/-- Line 2229: the list of captures of the numbered-item regex. -/
def findNumbered (s : List Char) : List (List Char) :=
  findNumberedGo (s.length + 1) s

/-- Lines 2257–2269, `is_valid_question`: reject anything shorter than 15
characters, then require a `?` or one of the fixed question-leading words at
the start (the marker list at line 2266 also contains `'?'` itself). -/
def is_valid_question (question_text : List Char) : Bool :=
  if question_text.length < 15 then false
  else
    let ql := pyLower question_text
    let markers := ["?", "what", "how", "why", "describe", "explain", "define",
                    "identify", "list", "compare"]
    pyContains ("?".toList) ql || markers.any (fun m => m.toList.isPrefixOf ql)

/-- The sentinel returned at line 2255. -/
def couldNotGenerateSentinel : List Char :=
  "Could not generate valid active recall questions. Please try again with a different topic.".toList

/-- Lines 2228–2237: numbered extraction, strip, and validation. -/
def validatedNumberedQuestions (raw : List Char) : List (List Char) :=
  ((findNumbered raw).map pyStrip).filter
    (fun cleaned => !cleaned.isEmpty && is_valid_question cleaned)

/-- Lines 2243–2249: the line-scan fallback.  A stripped line qualifies when
it contains `'?'` and `len(line) > 15` (strictly more than 15 characters). -/
def fallbackQuestionLines (raw : List Char) : List (List Char) :=
  ((pySplit '\n' raw).map pyStrip).filter
    (fun line => pyContains ("?".toList) line && decide (15 < line.length))

/-- Lines 2223–2255, `parse_and_validate_questions`: validated numbered items
if any; else the fallback lines capped at 10; else the sentinel string as a
single-element list (returned as data, never an exception). -/
def parse_and_validate_questions (raw : List Char) : List (List Char) :=
  let validated := validatedNumberedQuestions raw
  if !validated.isEmpty then validated
  else
    let fallback := fallbackQuestionLines raw
    if !fallback.isEmpty then fallback.take 10
    else [couldNotGenerateSentinel]

/-! ## Session resolution in the HTTP handlers
(app.py lines 356–381, 413–435, 1079–1097)

`chat_sessions` is modelled as an association list keyed by the session id
from the (signed) cookie.  `none` for the cookie id models both a missing
cookie and a falsy (empty) one. -/

/-- The process-wide store. -/
abbrev Store : Type := List (List Char × SessionData)

/-- Python `chat_sessions.get(sid)` / `sid in chat_sessions`. -/
def storeGet (store : Store) (sid : List Char) : Option SessionData :=
  match store with
  | [] => none
  | (k, v) :: rest => if k = sid then some v else storeGet rest sid

/-- Python `chat_sessions[sid] = data` (replaces or adds the entry). -/
def storeSet (store : Store) (sid : List Char) (data : SessionData) : Store :=
  match store with
  | [] => [(sid, data)]
  | (k, v) :: rest =>
    if k = sid then (k, data) :: rest else (k, v) :: storeSet rest sid data

/-- Result of the opening of the `/chat` handler. -/
inductive ChatSetupResult where
  | badRequest
  | proceedToDialogue
deriving DecidableEq, Repr

/-- Lines 356–381 of `chat()`: reject a missing cookie id or empty message
with the 400 `'Invalid session or empty message'`; otherwise, when the id has
no store entry, CREATE one with the `newChatSession` defaults (lines 368–373)
and append the user message (lines 377–381).  The dialogue dispatch that
follows (lines 383–398) invokes the generation collaborator and is not
needed by any claim. -/
def chat_session_setup (store : Store) (cookie_sid : Option (List Char))
    (user_message : List Char) : ChatSetupResult × Store :=
  match cookie_sid with
  | none => (ChatSetupResult.badRequest, store)
  | some sid =>
    if user_message.isEmpty then (ChatSetupResult.badRequest, store)
    else
      let store1 :=
        match storeGet store sid with
        | none => storeSet store sid newChatSession
        | some _ => store
      match storeGet store1 sid with
      | none => (ChatSetupResult.proceedToDialogue, store1)
      | some sd =>
        let sd1 :=
          { sd with messages := sd.messages ++
              [{ role := "user".toList, content := user_message }] }
        (ChatSetupResult.proceedToDialogue, storeSet store1 sid sd1)

/-- The request to `/questions/state`: GET, or POST with an action. -/
inductive QSRequest where
  | get
  | post (a : QSAction)

/-- Lines 413–616 of `manage_question_state`, with its session resolution:
a missing/falsy cookie id is the 400 `'Invalid session'` (lines 419–421);
an id that is NOT in the store makes line 425
(`chat_sessions[session_id]['question_state'] = …`, guarded by
`'question_state' not in chat_sessions.get(session_id, {})`) raise `KeyError`,
which the `except` at lines 610–616 converts into a 500 internal error — not
an invalid-session reply, and the store is left unchanged.  Only for a known
id does the handler run. -/
def manage_question_state_route (now : ℚ) (req : QSRequest) (store : Store)
    (cookie_sid : Option (List Char)) : QSResponse × Store :=
  match cookie_sid with
  | none => (QSResponse.invalidSession, store)
  | some sid =>
    match storeGet store sid with
    | none => (QSResponse.internalError, store)
    | some sd =>
      let sd1 := ensureQuestionState sd
      match req with
      | QSRequest.get =>
        (QSResponse.stateOut (sd1.question_state.getD initialQuestionState),
         storeSet store sid sd1)
      | QSRequest.post a =>
        let r := manage_question_state_post now a sd1
        (r.1, storeSet store sid r.2)

/-- Replies of `/text-to-speech/preferences` that the claims mention. -/
inductive PrefResponse where
  | invalidSession
  | internalError
  | prefsOut (p : TTSPrefs)
deriving DecidableEq, Repr

/-- Lines 1079–1131, `tts_preferences` (GET shown; POST only merges fields
and is irrelevant to the claims): missing/falsy cookie id → 400
`'Invalid session'` (lines 1085–1087); an id absent from the store makes
line 1091 raise `KeyError` exactly as in `manage_question_state_route`,
surfaced as the 500 internal error of lines 1133–1139; a known id gets the
defaults installed when absent and its preferences returned. -/
def tts_preferences_route (store : Store) (cookie_sid : Option (List Char)) :
    PrefResponse × Store :=
  match cookie_sid with
  | none => (PrefResponse.invalidSession, store)
  | some sid =>
    match storeGet store sid with
    | none => (PrefResponse.internalError, store)
    | some sd =>
      let sd1 :=
        match sd.tts_preferences with
        | none => { sd with tts_preferences := some defaultTTSPrefs }
        | some _ => sd
      (PrefResponse.prefsOut (sd1.tts_preferences.getD defaultTTSPrefs),
       storeSet store sid sd1)

/-! ## Realtime authentication (app.py lines 111–178) -/

/-- Lookup in the session's `websocket_tokens` dict. -/
def tokensGet (tokens : List (List Char × TokenData)) (t : List Char) :
    Option TokenData :=
  match tokens with
  | [] => none
  | (k, v) :: rest => if k = t then some v else tokensGet rest t

/-- A `socket_sessions` binding as stored at lines 142–147. -/
structure SocketBinding where
  session_id : List Char
  authenticated_at : ℚ
  token : List Char
  type : List Char
deriving DecidableEq, Repr

/-- The per-connection map `socket_sessions`, keyed by the socket id. -/
abbrev SocketSessions : Type := List (ℕ × SocketBinding)

/-- The `authentication_status` emit plus the success side effects the claims
mention: on success the handler also joins the session's room (line 160) and
immediately pushes the session's current `ui_state` (line 163; `none`
models the `{}` default of `.get('ui_state', {})`). -/
inductive AuthResult where
  | missingFields
  | expired
  | invalidTokenOrSession
  | success (joined_room : List Char) (pushed_ui : Option UIState)
deriving DecidableEq, Repr

/-- Lines 111–171, `handle_authentication`: falsy token or session id →
`'Missing token or session_id'`; a known session with a token map containing
the token → expiry check `expires_at < time.time()` (line 134, strict) —
expired tokens are rejected with `'Token expired'` and NO binding is stored;
otherwise the binding is stored under the socket id (lines 142–147), the
success status is emitted, the room is joined and the ui state pushed.
Every other case falls through to `'Invalid token or session'`
(lines 167–171) with no binding stored. -/
def handle_authentication (now : ℚ) (store : Store) (socks : SocketSessions)
    (sid : ℕ) (token session_id : Option (List Char)) :
    AuthResult × SocketSessions :=
  match token, session_id with
  | some t, some s =>
    if t.isEmpty || s.isEmpty then (AuthResult.missingFields, socks)
    else
      match storeGet store s with
      | some sd =>
        match sd.websocket_tokens with
        | some tokens =>
          match tokensGet tokens t with
          | some token_data =>
            if token_data.expires_at < now then (AuthResult.expired, socks)
            else
              let binding : SocketBinding :=
                { session_id := s, authenticated_at := now, token := t,
                  type := token_data.type }
              (AuthResult.success s sd.ui_state, (sid, binding) :: socks)
          | none => (AuthResult.invalidTokenOrSession, socks)
        | none => (AuthResult.invalidTokenOrSession, socks)
      | none => (AuthResult.invalidTokenOrSession, socks)
  | _, _ => (AuthResult.missingFields, socks)

/-! ## Helper lemmas -/

theorem listInsertAt_length {α : Type} (n : ℕ) (a : α) (l : List α) :
    (listInsertAt n a l).length = l.length + 1 := by
  induction l generalizing n with
  | nil => cases n <;> rfl
  | cons b t ih =>
    cases n with
    | zero => rfl
    | succ m => simp [listInsertAt, ih]

theorem sublist_listInsertAt {α : Type} (n : ℕ) (a : α) (l : List α) :
    l.Sublist (listInsertAt n a l) := by
  induction l generalizing n with
  | nil => cases n <;> simp [listInsertAt]
  | cons b t ih =>
    cases n with
    | zero => exact List.sublist_cons_self a (b :: t)
    | succ m => exact List.Sublist.cons₂ b (ih m)

theorem pyContains_iff_sublist_between (n h : List Char) :
    pyContains n h = true ↔ n <:+: h := by
  induction h with
  | nil =>
    simp [pyContains, List.isPrefixOf_iff_prefix]
  | cons c t ih =>
    simp [pyContains, List.isPrefixOf_iff_prefix, ih, List.infix_cons_iff]

theorem pyContains_char_iff (c : Char) (l : List Char) :
    pyContains [c] l = true ↔ c ∈ l := by
  induction l with
  | nil => simp [pyContains, List.isPrefixOf]
  | cons x t ih =>
    have hp : ([c].isPrefixOf (x :: t)) = (c == x) := by simp [List.isPrefixOf]
    simp [pyContains, hp, ih]

theorem storeGet_storeSet_self (store : Store) (sid : List Char)
    (d : SessionData) : storeGet (storeSet store sid d) sid = some d := by
  induction store with
  | nil => simp [storeSet, storeGet]
  | cons kv rest ih =>
    by_cases h : kv.1 = sid <;> simp [storeSet, storeGet, h, ih]

/-! ## Concrete sample data used by witnesses and counterexamples -/

/-- Enqueue `(A,normal)` of the spec's worked example. -/
def reqA : TTSRequest :=
  mkTTSRequest ("A".toList) ("nova".toList) ("sonic-2".toList) ("c1".toList) 0
    Priority.normal

/-- Enqueue `(B,high)` of the spec's worked example. -/
def reqB : TTSRequest :=
  mkTTSRequest ("B".toList) ("nova".toList) ("sonic-2".toList) ("c2".toList) 0
    Priority.high

/-- Enqueue `(C,low)` of the spec's worked example. -/
def reqC : TTSRequest :=
  mkTTSRequest ("C".toList) ("nova".toList) ("sonic-2".toList) ("c3".toList) 0
    Priority.low

/-- Enqueue `(D,high)` of the spec's worked example. -/
def reqD : TTSRequest :=
  mkTTSRequest ("D".toList) ("nova".toList) ("sonic-2".toList) ("c4".toList) 0
    Priority.high

/-- A session whose speech queue holds the one pending request `reqA`. -/
def sampleTTSSession : SessionData :=
  { newChatSession with
    tts_queue := some [reqA],
    ui_state := some { is_assistant_speaking := false } }

/-! ## Claim C9 -/

/-- Claim C9: a single enqueue on a session's speech queue, whatever its
priority, keeps every item already in the queue, in unchanged relative order
(`List.Sublist`), and grows the queue length by exactly one. -/
theorem claim_C9_enqueue_frame (q : List TTSRequest) (r : TTSRequest) :
    (tts_queue_enqueue q r).length = q.length + 1 ∧
    q.Sublist (tts_queue_enqueue q r) := by
  unfold tts_queue_enqueue
  cases r.priority with
  | high =>
    exact ⟨by simp [listInsertAt], List.sublist_cons_self r q⟩
  | low =>
    exact ⟨by simp, List.sublist_append_left q [r]⟩
  | normal =>
    by_cases hq : q.isEmpty
    · simp [hq]
    · simp only [hq, if_false]
      exact ⟨listInsertAt_length _ r q, sublist_listInsertAt _ r q⟩

/-! ## Claim C10 -/

/-- Claim C10: with a non-empty queue and no Cartesia key configured,
`process_tts_queue` still pops the head item, records it as `active_tts`,
sets the `is_assistant_speaking` flag, and only then answers with the 503
configuration error; the popped item is not re-inserted. -/
theorem claim_C10_pop_before_key_check (sd : SessionData) (r : TTSRequest)
    (rest : List TTSRequest) (u : UIState)
    (hq : sd.tts_queue = some (r :: rest)) (hu : sd.ui_state = some u) :
    (process_tts_queue false sd).1 = TTSProcessResult.apiKeyMissing ∧
    (process_tts_queue false sd).2.tts_queue = some rest ∧
    (process_tts_queue false sd).2.active_tts = some r ∧
    (process_tts_queue false sd).2.ui_state =
      some { is_assistant_speaking := true } := by
  simp [process_tts_queue, hq, setSpeaking, hu]

/-- Witness for C10 at a concrete session. -/
theorem claim_C10_witness :
    (process_tts_queue false sampleTTSSession).1 = TTSProcessResult.apiKeyMissing ∧
    (process_tts_queue false sampleTTSSession).2.tts_queue = some [] ∧
    (process_tts_queue false sampleTTSSession).2.active_tts = some reqA ∧
    (process_tts_queue false sampleTTSSession).2.ui_state =
      some { is_assistant_speaking := true } :=
  claim_C10_pop_before_key_check sampleTTSSession reqA [] ⟨false⟩ rfl rfl

/-! ## Claim C8 -/

/-- Claim C8: for a `{token, session_id}` authentication attempt against a
known session with a token map, an expired token (`expires_at < now`) is
rejected as expired and a token missing from the map as invalid, in both
cases leaving `socket_sessions` unchanged (no binding); a live, present
token binds the connection to the session, joins the session's room and
immediately pushes the session's current UI state. -/
theorem claim_C8_authentication (now : ℚ) (store : Store)
    (socks : SocketSessions) (sid : ℕ) (t s : List Char) (sd : SessionData)
    (tokens : List (List Char × TokenData)) (td : TokenData)
    (ht : t.isEmpty = false) (hs : s.isEmpty = false)
    (hsd : storeGet store s = some sd)
    (htm : sd.websocket_tokens = some tokens) :
    (tokensGet tokens t = some td → td.expires_at < now →
      handle_authentication now store socks sid (some t) (some s) =
        (AuthResult.expired, socks)) ∧
    (tokensGet tokens t = none →
      handle_authentication now store socks sid (some t) (some s) =
        (AuthResult.invalidTokenOrSession, socks)) ∧
    (tokensGet tokens t = some td → ¬td.expires_at < now →
      handle_authentication now store socks sid (some t) (some s) =
        (AuthResult.success s sd.ui_state,
         (sid, { session_id := s, authenticated_at := now, token := t,
                 type := td.type }) :: socks)) := by
  refine ⟨fun hg hexp => ?_, fun hg => ?_, fun hg hlive => ?_⟩ <;>
    simp [handle_authentication, ht, hs, hsd, htm, hg, *]

/-- The live token data of the C8 witness store. -/
def tdLive : TokenData :=
  { created_at := 0, expires_at := 100, type := "websocket_auth".toList }

/-- The expired token data of the C8 witness store. -/
def tdOld : TokenData :=
  { created_at := 0, expires_at := 10, type := "websocket_auth".toList }

/-- The token map of the C8 witness store. -/
def authSampleTokens : List (List Char × TokenData) :=
  [(("tok-live".toList), tdLive), (("tok-old".toList), tdOld)]

/-- The session of the C8 witness store. -/
def authSampleSession : SessionData :=
  { newChatSession with
    ui_state := some { is_assistant_speaking := false },
    websocket_tokens := some authSampleTokens }

/-- A store with one session `s1` holding a live token (expires at 100) and
an expired one (expired at 10), used as the C8 witness at current time 50. -/
def authSampleStore : Store := [(("s1".toList), authSampleSession)]

/-- Witness for C8: at time 50 on `authSampleStore`, the expired token is
rejected as expired, an unknown token as invalid (both without binding), and
the live token authenticates, binds and pushes the UI state. -/
theorem claim_C8_witness :
    handle_authentication 50 authSampleStore [] 7 (some ("tok-old".toList))
        (some ("s1".toList)) = (AuthResult.expired, []) ∧
    handle_authentication 50 authSampleStore [] 7 (some ("tok-nope".toList))
        (some ("s1".toList)) = (AuthResult.invalidTokenOrSession, []) ∧
    handle_authentication 50 authSampleStore [] 7 (some ("tok-live".toList))
        (some ("s1".toList)) =
      (AuthResult.success ("s1".toList) (some { is_assistant_speaking := false }),
       [(7, { session_id := "s1".toList, authenticated_at := 50,
              token := "tok-live".toList, type := "websocket_auth".toList })]) := by
  refine ⟨?_, ?_, ?_⟩
  · exact (claim_C8_authentication 50 authSampleStore [] 7 ("tok-old".toList)
      ("s1".toList) authSampleSession authSampleTokens tdOld
      (by decide) (by decide) (by decide) (by decide)).1
      (by decide) (by norm_num [tdOld])
  · exact (claim_C8_authentication 50 authSampleStore [] 7 ("tok-nope".toList)
      ("s1".toList) authSampleSession authSampleTokens tdOld
      (by decide) (by decide) (by decide) (by decide)).2.1 (by decide)
  · exact (claim_C8_authentication 50 authSampleStore [] 7 ("tok-live".toList)
      ("s1".toList) authSampleSession authSampleTokens tdLive
      (by decide) (by decide) (by decide) (by decide)).2.2
      (by decide) (by norm_num [tdLive])

/-! ## Claim C1 -/

/-- Filter predicate: the request has priority `p`. -/
def prioEq (p : Priority) (r : TTSRequest) : Bool := decide (r.priority = p)

theorem normalInsertIdx_insert (r : TTSRequest) (H rest : List TTSRequest)
    (hH : ∀ x ∈ H, x.priority = Priority.high)
    (hrest : ∀ x ∈ rest, x.priority ≠ Priority.high) :
    listInsertAt (normalInsertIdx (H ++ rest)) r (H ++ rest) = H ++ r :: rest := by
  induction H with
  | nil =>
    cases rest with
    | nil => rfl
    | cons x t =>
      have hx : x.priority ≠ Priority.high := hrest x (List.mem_cons_self x t)
      simp [normalInsertIdx, hx, listInsertAt]
  | cons h H ih =>
    have hh : h.priority = Priority.high := hH h (List.mem_cons_self h H)
    have ih1 := ih (fun x hx => hH x (List.mem_cons_of_mem h hx))
    simp [normalInsertIdx, hh, listInsertAt, ih1]

theorem enqueue_normal_insert (r : TTSRequest)
    (hr : r.priority = Priority.normal) (H rest : List TTSRequest)
    (hH : ∀ x ∈ H, x.priority = Priority.high)
    (hrest : ∀ x ∈ rest, x.priority ≠ Priority.high) :
    tts_queue_enqueue (H ++ rest) r = H ++ r :: rest := by
  unfold tts_queue_enqueue
  rw [hr]
  by_cases hq : (H ++ rest).isEmpty
  · rw [List.isEmpty_iff] at hq
    rcases List.append_eq_nil.mp hq with ⟨h1, h2⟩
    subst h1; subst h2
    rfl
  · simp only [hq, if_false]
    exact normalInsertIdx_insert r H rest hH hrest

theorem foldl_enqueue_eq (rs : List TTSRequest) :
    List.foldl tts_queue_enqueue [] rs =
      (rs.filter (prioEq Priority.high)).reverse ++
      (rs.filter (prioEq Priority.normal)).reverse ++
      rs.filter (prioEq Priority.low) := by
  induction rs using List.reverseRecOn with
  | nil => rfl
  | append_singleton l r ih =>
    rw [List.foldl_append, List.foldl_cons, List.foldl_nil, ih]
    cases hp : r.priority with
    | high =>
      have e : tts_queue_enqueue
          ((l.filter (prioEq Priority.high)).reverse ++
            (l.filter (prioEq Priority.normal)).reverse ++
            l.filter (prioEq Priority.low)) r =
          r :: ((l.filter (prioEq Priority.high)).reverse ++
            (l.filter (prioEq Priority.normal)).reverse ++
            l.filter (prioEq Priority.low)) := by
        unfold tts_queue_enqueue
        rw [hp]
        rfl
      rw [e]
      simp [List.filter_append, prioEq, hp]
    | low =>
      have e : tts_queue_enqueue
          ((l.filter (prioEq Priority.high)).reverse ++
            (l.filter (prioEq Priority.normal)).reverse ++
            l.filter (prioEq Priority.low)) r =
          ((l.filter (prioEq Priority.high)).reverse ++
            (l.filter (prioEq Priority.normal)).reverse ++
            l.filter (prioEq Priority.low)) ++ [r] := by
        unfold tts_queue_enqueue
        rw [hp]
      rw [e]
      simp [List.filter_append, prioEq, hp]
    | normal =>
      have hH : ∀ x ∈ (l.filter (prioEq Priority.high)).reverse,
          x.priority = Priority.high := by
        intro x hx
        rw [List.mem_reverse, List.mem_filter] at hx
        exact of_decide_eq_true hx.2
      have hrest : ∀ x ∈ (l.filter (prioEq Priority.normal)).reverse ++
          l.filter (prioEq Priority.low), x.priority ≠ Priority.high := by
        intro x hx
        rcases List.mem_append.mp hx with h | h
        · rw [List.mem_reverse, List.mem_filter] at h
          rw [of_decide_eq_true h.2]
          simp
        · rw [List.mem_filter] at h
          rw [of_decide_eq_true h.2]
          simp
      have e := enqueue_normal_insert r hp
        ((l.filter (prioEq Priority.high)).reverse)
        ((l.filter (prioEq Priority.normal)).reverse ++ l.filter (prioEq Priority.low))
        hH hrest
      rw [List.append_assoc, e]
      simp [List.filter_append, prioEq, hp]

theorem drainQueue_eq (q : List TTSRequest) : drainQueue q = q := by
  induction q with
  | nil => rfl
  | cons r rs ih => simp [drainQueue, ih]

/-- Claim C1, amended: draining after any sequence of enqueues onto an empty
queue yields all `high` items, then all `normal` items, then all `low` items;
the `low` items appear in enqueue order, but the `high` and the `normal`
items each come out in REVERSE enqueue order (`insert(0, …)` at line 1300
puts new `high` items in front of older ones, and the `normal` insertion
point of lines 1310–1316 sits before older `normal` items); in particular
the spec's example `(A,normal),(B,high),(C,low),(D,high)` drains `D,B,A,C`. -/
theorem claim_C1_amended :
    (∀ rs : List TTSRequest,
      drainQueue (List.foldl tts_queue_enqueue [] rs) =
        (rs.filter (prioEq Priority.high)).reverse ++
        (rs.filter (prioEq Priority.normal)).reverse ++
        rs.filter (prioEq Priority.low)) ∧
    (drainQueue (List.foldl tts_queue_enqueue [] [reqA, reqB, reqC, reqD])).map
        TTSRequest.text =
      [("D".toList), ("B".toList), ("A".toList), ("C".toList)] := by
  constructor
  · intro rs
    rw [drainQueue_eq, foldl_enqueue_eq]
  · decide

/-- Counterexample to claim C1 as stated: enqueuing
`(A,normal),(B,high),(C,low),(D,high)` and draining yields `D,B,A,C`, not the
claimed `B,D,A,C` — same-priority items do NOT come out in enqueue order for
`high` (and `normal`) items. -/
theorem claim_C1_counterexample :
    (drainQueue (List.foldl tts_queue_enqueue [] [reqA, reqB, reqC, reqD])).map
        TTSRequest.text ≠
      [("B".toList), ("D".toList), ("A".toList), ("C".toList)] := by
  decide

/-! ## Claim C2 -/

/-- The classification rule in the ORDER the claim states it (the
`"partially"/"partly"` check first): this definition follows the claim's
words, for comparison with `analyze_feedback_evaluation`, which follows the
code (lines 553–561, where the `"correct"` check comes first). -/
def spec_feedback_evaluation (feedback : List Char) : Evaluation :=
  let f := pyLower feedback
  if pyContains ("partially".toList) f || pyContains ("partly".toList) f then
    Evaluation.partially_correct
  else if pyContains ("correct".toList) f &&
      !(pyContains ("incorrect".toList) f || pyContains ("not correct".toList) f) then
    Evaluation.correct
  else
    Evaluation.incorrect

theorem analyze_feedback_evaluation_spec (f : List Char) :
    ((analyze_feedback_evaluation f = Evaluation.correct) ↔
      (pyContains ("correct".toList) (pyLower f) = true ∧
       ¬ pyContains ("not correct".toList) (pyLower f) = true ∧
       ¬ pyContains ("incorrect".toList) (pyLower f) = true)) ∧
    ((analyze_feedback_evaluation f = Evaluation.partially_correct) ↔
      (¬ (pyContains ("correct".toList) (pyLower f) = true ∧
          ¬ pyContains ("not correct".toList) (pyLower f) = true ∧
          ¬ pyContains ("incorrect".toList) (pyLower f) = true) ∧
       (pyContains ("partially".toList) (pyLower f) = true ∨
        pyContains ("partly".toList) (pyLower f) = true))) := by
  simp only [analyze_feedback_evaluation]
  cases hc : pyContains ("correct".toList) (pyLower f) <;>
    cases hn : pyContains ("not correct".toList) (pyLower f) <;>
    cases hi : pyContains ("incorrect".toList) (pyLower f) <;>
    cases h1 : pyContains ("partially".toList) (pyLower f) <;>
    cases h2 : pyContains ("partly".toList) (pyLower f) <;>
    simp_all

/-- The feedback text of the C2 counterexample. -/
def pcFeedback : List Char := ("Partially correct.").toList

/-- Counterexample to claim C2 as stated: on the feedback `"Partially
correct."` the code's rule (the `"correct"` check first, lines 553–561)
yields `correct` — and increments `correct_count` — while the claim's
priority order (`"partially"` first) demands `partially_correct`. -/
theorem claim_C2_counterexample :
    analyze_feedback_evaluation pcFeedback = Evaluation.correct ∧
    spec_feedback_evaluation pcFeedback = Evaluation.partially_correct ∧
    analyze_feedback_evaluation pcFeedback ≠ spec_feedback_evaluation pcFeedback ∧
    (evaluateFeedbackText 0 [] [] pcFeedback
        initialQuestionState).1.correct_count = 1 ∧
    (evaluateFeedbackText 0 [] [] pcFeedback
        initialQuestionState).1.partially_correct_count = 0 := by
  have hx : analyze_feedback_evaluation pcFeedback = Evaluation.correct := by decide
  refine ⟨hx, by decide, by decide, ?_, ?_⟩ <;>
    · unfold evaluateFeedbackText
      simp [hx, initialQuestionState]

/-- Claim C2, amended: the classification of lines 552–561 searches the
lowercased feedback in THIS priority order — `"correct"` present with
neither `"incorrect"` nor `"not correct"` → `correct`; otherwise
`"partially"` or `"partly"` → `partially_correct`; otherwise `incorrect` —
and exactly the matching counter is incremented (by one), the others and the
current index being left unchanged.  (In the deployed endpoint this block is
only reachable once the `feedback.lower()` AttributeError of line 554 is
fixed; see claim C7.) -/
theorem claim_C2_amended (now : ℚ) (q a f : List Char) (qs : QuestionState) :
    ((evaluateFeedbackText now q a f qs).2 = Evaluation.correct ↔
      (("correct".toList) <:+: pyLower f ∧
       ¬ ("not correct".toList) <:+: pyLower f ∧
       ¬ ("incorrect".toList) <:+: pyLower f)) ∧
    ((evaluateFeedbackText now q a f qs).2 = Evaluation.partially_correct ↔
      (¬ (("correct".toList) <:+: pyLower f ∧
          ¬ ("not correct".toList) <:+: pyLower f ∧
          ¬ ("incorrect".toList) <:+: pyLower f) ∧
       (("partially".toList) <:+: pyLower f ∨ ("partly".toList) <:+: pyLower f))) ∧
    (evaluateFeedbackText now q a f qs).1.correct_count =
      qs.correct_count +
        (if (evaluateFeedbackText now q a f qs).2 = Evaluation.correct then 1 else 0) ∧
    (evaluateFeedbackText now q a f qs).1.partially_correct_count =
      qs.partially_correct_count +
        (if (evaluateFeedbackText now q a f qs).2 = Evaluation.partially_correct
         then 1 else 0) ∧
    (evaluateFeedbackText now q a f qs).1.incorrect_count =
      qs.incorrect_count +
        (if (evaluateFeedbackText now q a f qs).2 = Evaluation.incorrect
         then 1 else 0) ∧
    (evaluateFeedbackText now q a f qs).1.current_index = qs.current_index := by
  have hev : (evaluateFeedbackText now q a f qs).2 = analyze_feedback_evaluation f :=
    rfl
  have hspec := analyze_feedback_evaluation_spec f
  simp only [pyContains_iff_sublist_between] at hspec
  refine ⟨by rw [hev]; exact hspec.1, by rw [hev]; exact hspec.2, ?_, ?_, ?_, ?_⟩
  · rw [hev]
    unfold evaluateFeedbackText
    cases hx : analyze_feedback_evaluation f <;>
      simp [hx] <;> split_ifs <;> simp
  · rw [hev]
    unfold evaluateFeedbackText
    cases hx : analyze_feedback_evaluation f <;>
      simp [hx] <;> split_ifs <;> simp
  · rw [hev]
    unfold evaluateFeedbackText
    cases hx : analyze_feedback_evaluation f <;>
      simp [hx] <;> split_ifs <;> simp
  · unfold evaluateFeedbackText
    cases hx : analyze_feedback_evaluation f <;>
      simp [hx] <;> split_ifs <;> simp

/-! ## Claim C3 -/

theorem neg_one_emod_eq (n : ℤ) (hn : 1 ≤ n) : (-1) % n = n - 1 := by
  have h1 : (-1 : ℤ) = (n - 1) + n * (-1) := by ring
  rw [h1, Int.add_mul_emod_self_left]
  exact Int.emod_eq_of_lt (by linarith) (by linarith)

/-- A session holding three questions with the current index on the last
one, used by the C3/C4 concrete statements. -/
def threeQSession : SessionData :=
  { newChatSession with
    current_topic := some ("biology".toList),
    generated_questions := [("qa?".toList), ("qb?".toList), ("qc?".toList)],
    question_state := some { initialQuestionState with current_index := 2 } }

/-- `threeQSession` with the current index on the first question. -/
def threeQZero : SessionData :=
  { threeQSession with question_state := some initialQuestionState }

/-- Counterexample to claim C3 as stated: one of the two advance
implementations the claim covers, the `'next'` action of
`/questions/state` (lines 462–495), advances `+1` from the last index of
`threeQSession`, wraps the index to 0 — and returns the question at index 0,
not a completion summary (the endpoint has no summary path at all). -/
theorem claim_C3_counterexample :
    (manage_question_state_post 0 QSAction.next threeQSession).1 =
      QSResponse.questionOut ("qa?".toList) 0 3 ∧
    ((manage_question_state_post 0 QSAction.next
        threeQSession).2.question_state.getD initialQuestionState).current_index
      = 0 := by
  constructor <;> decide

/-- Claim C3, amended: the completion summary belongs to the conversational
flow — `handle_next_question` advancing `+1` from the last index resets the
index to 0 and returns the completion summary with
`accuracy = correct_count / total_questions * 100` — while the
`/questions/state` `'next'` action wraps from the last index to 0 and
returns the first question with no summary; `'previous'` from index 0 wraps
to the last index. -/
theorem claim_C3_amended (now : ℚ) (sd : SessionData) (qs : QuestionState)
    (hqs : sd.question_state = some qs)
    (hne : sd.generated_questions ≠ []) :
    (qs.current_index = (sd.generated_questions.length : ℤ) - 1 →
      handle_next_question sd =
        (NextQuestionResult.completed qs.correct_count sd.generated_questions.length
           (qs.correct_count / (sd.generated_questions.length : ℚ) * 100),
         { sd with question_state := some { qs with current_index := 0 } })) ∧
    (qs.current_index = 0 →
      ((manage_question_state_post now QSAction.previous
          sd).2.question_state.getD initialQuestionState).current_index =
        (sd.generated_questions.length : ℤ) - 1) := by
  have hlen : 0 < sd.generated_questions.length := List.length_pos.mpr hne
  have hempt : sd.generated_questions.isEmpty = false :=
    List.isEmpty_eq_false.mpr hne
  constructor
  · intro hidx
    unfold handle_next_question
    have hc : (decide ((sd.generated_questions.length : ℤ) ≤
        (sd.generated_questions.length : ℤ) - 1 + 1)) = true := by
      simp
    simp only [hempt, Bool.false_eq_true, if_false, hqs, Option.getD_some, hidx,
      hc, if_true, hlen, if_pos]
  · intro hidx
    have hmod : ((0 : ℤ) - 1) % (sd.generated_questions.length : ℤ) =
        (sd.generated_questions.length : ℤ) - 1 := by
      have h1 : ((0 : ℤ) - 1) = -1 := by ring
      rw [h1]
      exact neg_one_emod_eq _ (by exact_mod_cast hlen)
    unfold manage_question_state_post ensureQuestionState prevQSAction
    simp only [hqs, Option.getD_some, hempt, Bool.false_eq_true, if_false, hidx,
      hmod]
    cases hp : pyIndex sd.generated_questions
        ((sd.generated_questions.length : ℤ) - 1) <;> simp [hp]

/-- Witness for C3 at `threeQSession` (3 questions, index 2, no correct
answers yet): `handle_next_question` returns the completion summary with
accuracy `0/3*100` and resets the index, and `'previous'` from index 0
wraps to index 2. -/
theorem claim_C3_witness :
    handle_next_question threeQSession =
      (NextQuestionResult.completed 0 3 (0 / (3 : ℚ) * 100), threeQZero) ∧
    ((manage_question_state_post 0 QSAction.previous
        threeQZero).2.question_state.getD initialQuestionState).current_index
      = 2 := by
  constructor
  · exact (claim_C3_amended 0 threeQSession
      { initialQuestionState with current_index := 2 } rfl (by decide)).1 rfl
  · exact (claim_C3_amended 0 threeQZero initialQuestionState rfl (by decide)).2 rfl


/-! ## Claim C4 -/

theorem ensure_generated_questions (sd : SessionData) :
    (ensureQuestionState sd).generated_questions = sd.generated_questions := by
  unfold ensureQuestionState
  cases sd.question_state <;> rfl

theorem nextQSAction_index (now : ℚ) (sd : SessionData) (qs : QuestionState)
    (hne : sd.generated_questions ≠ []) :
    ((nextQSAction now sd qs).2.question_state.getD
        initialQuestionState).current_index =
      (qs.current_index + 1) % (sd.generated_questions.length : ℤ) := by
  have hempt : sd.generated_questions.isEmpty = false :=
    List.isEmpty_eq_false.mpr hne
  unfold nextQSAction
  simp only [hempt, Bool.false_eq_true, if_false]
  cases hp : pyIndex sd.generated_questions
      ((qs.current_index + 1) % (sd.generated_questions.length : ℤ)) <;>
    simp [hp]

theorem prevQSAction_index (now : ℚ) (sd : SessionData) (qs : QuestionState)
    (hne : sd.generated_questions ≠ []) :
    ((prevQSAction now sd qs).2.question_state.getD
        initialQuestionState).current_index =
      (qs.current_index - 1) % (sd.generated_questions.length : ℤ) := by
  have hempt : sd.generated_questions.isEmpty = false :=
    List.isEmpty_eq_false.mpr hne
  unfold prevQSAction
  simp only [hempt, Bool.false_eq_true, if_false]
  cases hp : pyIndex sd.generated_questions
      ((qs.current_index - 1) % (sd.generated_questions.length : ℤ)) <;>
    simp [hp]

theorem evaluateQSAction_index (answer : List Char) (collab : Option (List Char))
    (sd : SessionData) (qs : QuestionState) :
    ((evaluateQSAction answer collab sd qs).2.question_state.getD
        initialQuestionState).current_index =
      (sd.question_state.getD initialQuestionState).current_index := by
  unfold evaluateQSAction
  by_cases h1 : answer.isEmpty = true
  · simp [h1]
  · by_cases h2 : sd.generated_questions.isEmpty = true
    · simp [h1, h2]
    · by_cases h3 :
          decide ((sd.generated_questions.length : ℤ) ≤ qs.current_index) = true
      · simp [h1, h2, h3]
      · simp only [h1, h2, h3, Bool.false_eq_true, if_false]
        cases hp : pyIndex sd.generated_questions qs.current_index <;>
          (simp only [hp]; try rfl)
        unfold generate_feedback_or_hint feedbackPair
        cases collab <;>
          · simp
            try (split_ifs <;> simp)

/-- Counterexample to claim C4 as stated: the `'update'` action
(lines 591–605) copies `current_index` with no validation, so a request
carrying `current_index = 5` against a 3-question session leaves the index
at 5, outside `[0, 3)` — the invariant does not survive direct state
updates. -/
theorem claim_C4_counterexample :
    ((manage_question_state_post 0
        (QSAction.update (some 5) none none none none none)
        threeQZero).2.question_state.getD initialQuestionState).current_index
      = 5 ∧
    (manage_question_state_post 0
        (QSAction.update (some 5) none none none none none)
        threeQZero).2.generated_questions.length = 3 ∧
    ¬ ((5 : ℤ) <
        ((manage_question_state_post 0
          (QSAction.update (some 5) none none none none none)
          threeQZero).2.generated_questions.length : ℤ)) := by
  refine ⟨by decide, by decide, by decide⟩

/-- Claim C4, amended: with a non-empty question list the navigation
actions (re-)establish the invariant — after `'next'` or `'previous'` the
index always lands in `[0, len(questions))`, by the `%` wrap of lines 470
and 505 — and `'evaluate'` never changes the index; but the `'update'`
action performs no validation and can place the index outside the range. -/
theorem claim_C4_amended (now : ℚ) (sd : SessionData)
    (hne : sd.generated_questions ≠ []) :
    (0 ≤ ((manage_question_state_post now QSAction.next
        sd).2.question_state.getD initialQuestionState).current_index ∧
     ((manage_question_state_post now QSAction.next
        sd).2.question_state.getD initialQuestionState).current_index <
       (sd.generated_questions.length : ℤ)) ∧
    (0 ≤ ((manage_question_state_post now QSAction.previous
        sd).2.question_state.getD initialQuestionState).current_index ∧
     ((manage_question_state_post now QSAction.previous
        sd).2.question_state.getD initialQuestionState).current_index <
       (sd.generated_questions.length : ℤ)) ∧
    (∀ answer collab,
      ((manage_question_state_post now (QSAction.evaluate answer collab)
          sd).2.question_state.getD initialQuestionState).current_index =
        ((ensureQuestionState sd).question_state.getD
          initialQuestionState).current_index) := by
  have hne1 : (ensureQuestionState sd).generated_questions ≠ [] := by
    rw [ensure_generated_questions]
    exact hne
  have hz : (sd.generated_questions.length : ℤ) ≠ 0 := by
    have := List.length_pos.mpr hne
    omega
  have hzp : (0 : ℤ) < (sd.generated_questions.length : ℤ) := by
    have := List.length_pos.mpr hne
    omega
  have e1 : manage_question_state_post now QSAction.next sd =
      nextQSAction now (ensureQuestionState sd)
        ((ensureQuestionState sd).question_state.getD initialQuestionState) := rfl
  have e2 : manage_question_state_post now QSAction.previous sd =
      prevQSAction now (ensureQuestionState sd)
        ((ensureQuestionState sd).question_state.getD initialQuestionState) := rfl
  refine ⟨?_, ?_, ?_⟩
  · rw [e1, nextQSAction_index now _ _ hne1, ensure_generated_questions]
    exact ⟨Int.emod_nonneg _ hz, Int.emod_lt_of_pos _ hzp⟩
  · rw [e2, prevQSAction_index now _ _ hne1, ensure_generated_questions]
    exact ⟨Int.emod_nonneg _ hz, Int.emod_lt_of_pos _ hzp⟩
  · intro answer collab
    have e3 : manage_question_state_post now (QSAction.evaluate answer collab) sd =
        evaluateQSAction answer collab (ensureQuestionState sd)
          ((ensureQuestionState sd).question_state.getD initialQuestionState) := rfl
    rw [e3, evaluateQSAction_index]

/-- Witness for C4 at `threeQZero`: `'next'` puts the index at 1 ∈ [0,3),
`'previous'` at 2 ∈ [0,3), and an evaluation leaves it at 0. -/
theorem claim_C4_witness :
    (0 ≤ ((manage_question_state_post 0 QSAction.next
        threeQZero).2.question_state.getD initialQuestionState).current_index ∧
     ((manage_question_state_post 0 QSAction.next
        threeQZero).2.question_state.getD initialQuestionState).current_index <
       (threeQZero.generated_questions.length : ℤ)) ∧
    ((manage_question_state_post 0
        (QSAction.evaluate ("mitochondria".toList) (some ("Correct!".toList)))
        threeQZero).2.question_state.getD initialQuestionState).current_index =
      ((ensureQuestionState threeQZero).question_state.getD
        initialQuestionState).current_index :=
  ⟨(claim_C4_amended 0 threeQZero (by decide)).1,
   (claim_C4_amended 0 threeQZero (by decide)).2.2 ("mitochondria".toList)
     (some ("Correct!".toList))⟩

/-! ## Claim C5 -/

/-- The fallback selection as the claim words it — lines of the input that
contain a question mark and are AT LEAST 15 characters long, capped at 10.
This definition follows the claim's words, for comparison with
`fallbackQuestionLines`, which follows the code (line 2248: `len(line) > 15`,
i.e. strictly more than 15). -/
def specFallbackLines (raw : List Char) : List (List Char) :=
  ((pySplit '\n' raw).filter
    (fun line => pyContains ("?".toList) line && decide (15 ≤ line.length))).take 10

/-- The 15-character one-line input of the C5 counterexample. -/
def shortQLine : List Char := ("Is it time now?").toList

/-- Counterexample to claim C5 as stated: `"Is it time now?"` has no numbered
items, contains `?` and is exactly 15 characters long — "at least 15" — so
the claim predicts it is returned as a fallback line; but line 2248 requires
`len(line) > 15`, so the code rejects it and returns the sentinel instead. -/
theorem claim_C5_counterexample :
    validatedNumberedQuestions shortQLine = [] ∧
    ('?' ∈ shortQLine ∧ shortQLine.length = 15) ∧
    specFallbackLines shortQLine = [shortQLine] ∧
    parse_and_validate_questions shortQLine = [couldNotGenerateSentinel] ∧
    parse_and_validate_questions shortQLine ≠ specFallbackLines shortQLine := by
  refine ⟨by decide, ⟨by decide, by decide⟩, by decide, by decide, by decide⟩

theorem fallbackQuestionLines_eq (raw : List Char) :
    fallbackQuestionLines raw =
      ((pySplit '\n' raw).map pyStrip).filter
        (fun line => decide ('?' ∈ line ∧ 15 < line.length)) := by
  unfold fallbackQuestionLines
  apply List.filter_congr
  intro l _
  have h1 : (pyContains ("?".toList) l = true) ↔ '?' ∈ l := pyContains_char_iff '?' l
  cases hq : pyContains ("?".toList) l <;>
    cases hl2 : decide (15 < l.length) <;>
    simp_all

/-- Claim C5, amended: whenever numbered-item extraction and validation
yield zero valid questions, the parser returns exactly the
whitespace-stripped lines of the input that contain a question mark and are
MORE than 15 characters long (at least 16), in order, capped at 10; if that
too yields nothing it returns the single-element "could not generate"
sentinel list as data — no exception is raised. -/
theorem claim_C5_amended (raw : List Char)
    (h : validatedNumberedQuestions raw = []) :
    parse_and_validate_questions raw =
      (if ((pySplit '\n' raw).map pyStrip).filter
            (fun line => decide ('?' ∈ line ∧ 15 < line.length)) = []
       then [couldNotGenerateSentinel]
       else (((pySplit '\n' raw).map pyStrip).filter
            (fun line => decide ('?' ∈ line ∧ 15 < line.length))).take 10) := by
  unfold parse_and_validate_questions
  rw [h, fallbackQuestionLines_eq]
  simp only [List.isEmpty_nil, Bool.not_true, Bool.false_eq_true, if_false]
  by_cases hF : ((pySplit '\n' raw).map pyStrip).filter
      (fun line => decide ('?' ∈ line ∧ 15 < line.length)) = []
  · rw [hF]
    simp
  · have hFe : (((pySplit '\n' raw).map pyStrip).filter
        (fun line => decide ('?' ∈ line ∧ 15 < line.length))).isEmpty = false :=
      List.isEmpty_eq_false.mpr hF
    simp only [hFe, Bool.not_false, if_true, if_neg hF]

/-- The two-line input of the C5 witness: no numbering anywhere, one line
with a `?` and more than 15 characters. -/
def fallbackSample : List Char :=
  ("no numbering here at all\nis that quite a problem for you?").toList

/-- Witness for C5: on `fallbackSample` the numbered extraction validates
nothing and the parser returns the qualifying stripped lines capped at 10. -/
theorem claim_C5_witness :
    parse_and_validate_questions fallbackSample =
      (if ((pySplit '\n' fallbackSample).map pyStrip).filter
            (fun line => decide ('?' ∈ line ∧ 15 < line.length)) = []
       then [couldNotGenerateSentinel]
       else (((pySplit '\n' fallbackSample).map pyStrip).filter
            (fun line => decide ('?' ∈ line ∧ 15 < line.length))).take 10) :=
  claim_C5_amended fallbackSample (by decide)

/-! ## Claim C6 -/

/-- Counterexample to claim C6 as stated: with an empty store and the cookie
id `s1`, `/questions/state` does not answer "invalid session" — line 425
raises `KeyError` and the handler returns the 500 internal error — and
`/chat` does not reject the unknown id at all: it silently creates a fresh
store entry (lines 368–373), although `/chat` is not the designated session
entry point (that is the index route, lines 221–232). -/
theorem claim_C6_counterexample :
    manage_question_state_route 0 QSRequest.get [] (some ("s1".toList)) =
      (QSResponse.internalError, []) ∧
    QSResponse.internalError ≠ QSResponse.invalidSession ∧
    (chat_session_setup [] (some ("s1".toList)) ("hi".toList)).1 =
      ChatSetupResult.proceedToDialogue ∧
    storeGet (chat_session_setup [] (some ("s1".toList)) ("hi".toList)).2
      ("s1".toList) ≠ none := by
  refine ⟨by decide, by decide, by decide, by decide⟩

/-- Claim C6, amended: only a MISSING (falsy) cookie session id is rejected
with the explicit "invalid session" error.  A cookie id that is absent from
the session store is not: `/questions/state` and
`/text-to-speech/preferences` fail with a `KeyError`-driven 500 internal
error (store unchanged), and `/chat` silently creates a fresh store entry
for it — session creation is not confined to the single designated entry
point. -/
theorem claim_C6_amended :
    (∀ (now : ℚ) (req : QSRequest) (store : Store),
      manage_question_state_route now req store none =
        (QSResponse.invalidSession, store)) ∧
    (∀ store : Store,
      tts_preferences_route store none = (PrefResponse.invalidSession, store)) ∧
    (∀ (now : ℚ) (req : QSRequest) (store : Store) (sid : List Char),
      storeGet store sid = none →
        manage_question_state_route now req store (some sid) =
          (QSResponse.internalError, store)) ∧
    (∀ (store : Store) (sid : List Char),
      storeGet store sid = none →
        tts_preferences_route store (some sid) =
          (PrefResponse.internalError, store)) ∧
    (∀ (store : Store) (sid : List Char) (msg : List Char),
      storeGet store sid = none → msg ≠ [] →
        (chat_session_setup store (some sid) msg).1 =
          ChatSetupResult.proceedToDialogue ∧
        storeGet (chat_session_setup store (some sid) msg).2 sid =
          some { newChatSession with
                 messages := [{ role := "user".toList, content := msg }] }) := by
  refine ⟨fun now req store => rfl, fun store => rfl, ?_, ?_, ?_⟩
  · intro now req store sid hs
    unfold manage_question_state_route
    simp only [hs]
  · intro store sid hs
    unfold tts_preferences_route
    simp only [hs]
  · intro store sid msg hs hm
    have hme : msg.isEmpty = false := List.isEmpty_eq_false.mpr hm
    unfold chat_session_setup
    simp only [hme, Bool.false_eq_true, if_false, hs, storeGet_storeSet_self,
      Option.getD_some]
    refine ⟨trivial, ?_⟩
    simp [newChatSession]

/-- Witness for C6: the unknown-id branches evaluated at the empty store and
id `s1`, and the chat-created entry carrying exactly the user message. -/
theorem claim_C6_witness :
    manage_question_state_route 0 QSRequest.get [] (some ("s1".toList)) =
      (QSResponse.internalError, []) ∧
    tts_preferences_route [] (some ("s1".toList)) =
      (PrefResponse.internalError, []) ∧
    storeGet (chat_session_setup [] (some ("s1".toList)) ("hi".toList)).2
        ("s1".toList) =
      some { newChatSession with
             messages := [{ role := "user".toList, content := ("hi".toList) }] } :=
  ⟨(claim_C6_amended.2.2.1 0 QSRequest.get [] ("s1".toList) rfl),
   (claim_C6_amended.2.2.2.1 [] ("s1".toList) rfl),
   (claim_C6_amended.2.2.2.2 [] ("s1".toList) ("hi".toList) rfl (by decide)).2⟩

/-! ## Claim C7 -/

/-- A fresh one-question session for the C7 failing input. -/
def capitalSession : SessionData :=
  { newChatSession with
    generated_questions := [("What is the capital of France?".toList)],
    question_state := some initialQuestionState }

/-- The answer of the C7 failing input. -/
def parisAnswer : List Char := ("Paris").toList

/-- The collaborator feedback of the C7 failing input. -/
def correctFeedback : List Char := ("That is correct.").toList

/-- Claim C7 describes the mastery recomputation of lines 577–582, but that
code never runs: line 550 binds `feedback` to the `(message, text)` PAIR
returned by `generate_feedback_or_hint`, and line 554 calls
`feedback.lower()`, an `AttributeError` on a tuple, so every `'evaluate'`
request ends in the 500 handler of lines 610–616.  At the failing input —
answer `"Paris"`, collaborator feedback `"That is correct."` — the endpoint
returns the internal error, `mastery_level` stays 0.0 (not the 1.0 the claim
computes), while `generate_feedback_or_hint`'s own counter side effect
(line 2374) has already pushed `correct_count` to 1. -/
theorem claim_C7_bug_evaluate_crashes :
    (manage_question_state_post 0
      (QSAction.evaluate parisAnswer (some correctFeedback))
      capitalSession).1 = QSResponse.internalError ∧
    ((manage_question_state_post 0
      (QSAction.evaluate parisAnswer (some correctFeedback))
      capitalSession).2.question_state.getD initialQuestionState).mastery_level
      = 0 ∧
    ((manage_question_state_post 0
      (QSAction.evaluate parisAnswer (some correctFeedback))
      capitalSession).2.question_state.getD initialQuestionState).correct_count
      = 1 := by
  have hx : manage_question_state_post 0
      (QSAction.evaluate parisAnswer (some correctFeedback)) capitalSession =
      evaluateQSAction parisAnswer (some correctFeedback)
        capitalSession initialQuestionState := rfl
  have h1 : parisAnswer.isEmpty = false := by decide
  have h2 : capitalSession.generated_questions.isEmpty = false := by decide
  have h3 : (decide ((capitalSession.generated_questions.length : ℤ) ≤
      initialQuestionState.current_index)) = false := by decide
  have h4 : pyIndex capitalSession.generated_questions
      initialQuestionState.current_index =
      some ("What is the capital of France?".toList) := by decide
  have h5 : (capitalSession.generated_questions.isEmpty ||
      decide ((capitalSession.generated_questions.length : ℤ) ≤
        (capitalSession.question_state.getD
          initialQuestionState).current_index)) = false := by decide
  have h6 : (pyContains ("hint".toList) (pyLower parisAnswer) ||
      pyContains ("help".toList) (pyLower parisAnswer)) = false := by decide
  have h7 : (pyContains ("correct".toList) (pyLower correctFeedback) &&
      !pyContains ("incorrect".toList) (pyLower correctFeedback)) = true := by
    decide
  refine ⟨by decide, ?_, ?_⟩ <;>
    · rw [hx]
      unfold evaluateQSAction
      simp only [h1, h2, h3, h4, Bool.false_eq_true, if_false]
      unfold generate_feedback_or_hint feedbackPair
      simp only [h5, h6, h7, Bool.false_eq_true, if_false, if_true]
      simp [capitalSession, initialQuestionState]
